import Mathlib

/-!
Shallow embedding of the Lot Ledger / Tax Engine / Return Calculator core of
the dohodometr investment service, together with theorems settling the
frozen claims about it.

Sources embedded:
- `backend/app/repositories/transaction.py` (`TransactionRepository.create`,
  `TransactionRepository._update_holdings_fifo`);
- `server_backup/backend/app/services/tax_calculator_rf.py`
  (`TaxCalculatorRF` and its helpers);
- `backend/app/services/portfolio_analytics.py`
  (`PortfolioAnalyticsService.calculate_twr`).

Modelling conventions:
- Python `Decimal` values are modelled as `ℚ` (exact arithmetic, as the
  source's numeric policy requires); `calculate_twr`'s numeric result is
  carried into `ℝ`.  Its `period_days > 365` annualisation branch applies
  `**` to a `Decimal` and a `float`, which raises `TypeError` in CPython;
  the method's blanket `except` turns that into `None`, and the model
  returns `none` there.
- Python `date` objects are modelled by `PyDate` (year/month/day) with
  lexicographic order; `(a - b).days` is modelled via the standard
  civil-calendar ordinal (`PyDate.toOrdinal`, proleptic Gregorian).
  Where only ordering and day differences of dates matter (the return
  calculator), dates are modelled directly as ordinals in `ℤ`.
- Python's stable `sorted` is modelled by a stable insertion sort
  (`pySortBy`), extensionally equal to any stable sort by the same key.
- The database session of the repository is modelled as the list of
  `Holding` rows; `db.commit` / `db.rollback` in
  `TransactionRepository.create` become the pair returned by
  `createTransaction`: the updated state on success, the untouched input
  state together with the raised error on failure.
-/

/-! ## Dates -/

/-- A Python `datetime.date`: year, month, day. -/
structure PyDate where
  year : Int
  month : Int
  day : Int
deriving DecidableEq

/-- Lexicographic `≤` on dates, as Python compares `date` values. -/
def PyDate.leb (a b : PyDate) : Bool :=
  a.year < b.year ||
    (a.year == b.year &&
      (a.month < b.month || (a.month == b.month && a.day ≤ b.day)))

/-- Lexicographic `<` on dates. -/
def PyDate.ltb (a b : PyDate) : Bool :=
  a.year < b.year ||
    (a.year == b.year &&
      (a.month < b.month || (a.month == b.month && a.day < b.day)))

/-- Day number of a civil date (days since 1970-01-01, proleptic Gregorian);
the standard `days_from_civil` computation, modelling CPython's
`date.toordinal` up to a constant shift.  Intended for years ≥ 1 (all dates
appearing in the claims), where `Int` division is exact floor division. -/
def PyDate.toOrdinal (dt : PyDate) : Int :=
  let y := if dt.month ≤ 2 then dt.year - 1 else dt.year
  let era := y / 400
  let yoe := y - era * 400
  let mp := if dt.month > 2 then dt.month - 3 else dt.month + 9
  let doy := (153 * mp + 2) / 5 + dt.day - 1
  let doe := yoe * 365 + yoe / 4 - yoe / 100 + doy
  era * 146097 + doe - 719468

/-- `(a - b).days` on Python dates. -/
def PyDate.subDays (a b : PyDate) : Int := a.toOrdinal - b.toOrdinal

/-! ## Stable sort (Python `sorted`) -/

/-- Insert `x` into an already sorted list, before the first element not
strictly below it; combined with `pySortBy` this is a stable sort. -/
def pyInsert (lt : α → α → Bool) (x : α) : List α → List α
  | [] => [x]
  | y :: ys => if lt y x then y :: pyInsert lt x ys else x :: y :: ys

/-- Stable sort by a strict comparison, modelling Python's `sorted` with a
key function (`lt` compares the keys). -/
def pySortBy (lt : α → α → Bool) (l : List α) : List α :=
  l.foldr (pyInsert lt) []

/-! ## Repository layer: `transaction.py`

`TransactionRepository._update_holdings_fifo` and the commit/rollback logic
of `TransactionRepository.create`.  The holdings table is the state; the
transaction row itself (and its `lot_link` bookkeeping field, which is
written on the transaction, not on any holding) is outside the state the
claims are about. -/

/-- `TransactionType` of `app/models/transaction.py`. -/
inductive TransactionType
  | buy | sell | dividend | coupon | tax | fee | deposit | withdrawal
  | split | spin_off | merger
deriving DecidableEq

/-- The fields of a `Transaction` row that `_update_holdings_fifo` reads.
`quantity` is nullable in the model (`Optional[Decimal]`); `instrument_id`
is nullable.  `price` and `currency` are read only on the buy path. -/
structure RepoTransaction where
  account_id : Int
  instrument_id : Option Int
  transaction_type : TransactionType
  quantity : Option ℚ
  price : ℚ
  currency : String
deriving DecidableEq

/-- A `Holding` row (`app/models/holding.py`): unique per
(account_id, instrument_id); `updated_at` is modelled as an abstract
integer clock value. -/
structure Holding where
  account_id : Int
  instrument_id : Int
  quantity : ℚ
  avg_price : ℚ
  currency : String
  updated_at : Int
deriving DecidableEq

/-- The `select(Holding).where(account_id = .. and instrument_id = ..)`
lookup (`scalar_one_or_none`): first matching row. -/
def findHolding (st : List Holding) (a i : Int) : Option Holding :=
  st.find? (fun h => h.account_id == a && h.instrument_id == i)

/-- Open quantity of an (account, instrument) pair: the holding's quantity,
or 0 when no holding row exists (as the source's error message computes it:
`holding.quantity if holding else 0`). -/
def openQty (st : List Holding) (a i : Int) : ℚ :=
  match findHolding st a i with
  | some h => h.quantity
  | none => 0

/-- The `ValueError` raised by `_update_holdings_fifo` on oversell, with the
available and requested quantities its message interpolates. -/
inductive RepoError
  | insufficientQuantity (available : ℚ) (requested : ℚ)
deriving DecidableEq

/-- `TransactionRepository._update_holdings_fifo`.  The early
`if not transaction.instrument_id or not transaction.quantity: return`
guard is the outer match plus the `q == 0` test (Python falsiness of a
`Decimal`); `now` stands for `datetime.utcnow()`.  A newly created holding
row is appended (`db.add`); a holding reaching quantity 0 is removed
(`db.delete`). -/
def updateHoldingsFifo (st : List Holding) (tx : RepoTransaction)
    (now : Int) : Except RepoError (List Holding) :=
  match tx.instrument_id, tx.quantity with
  | some iid, some q =>
    if q == 0 then .ok st
    else
      match tx.transaction_type with
      | .buy =>
        match findHolding st tx.account_id iid with
        | some h =>
          let total_value := h.quantity * h.avg_price + q * tx.price
          let total_quantity := h.quantity + q
          let new_avg_price :=
            if total_quantity > 0 then total_value / total_quantity else 0
          .ok (st.map (fun h' =>
            if h'.account_id == tx.account_id && h'.instrument_id == iid then
              { h' with quantity := total_quantity,
                        avg_price := new_avg_price, updated_at := now }
            else h'))
        | none =>
          .ok (st ++ [{ account_id := tx.account_id, instrument_id := iid,
                        quantity := q, avg_price := tx.price,
                        currency := tx.currency, updated_at := now }])
      | .sell =>
        match findHolding st tx.account_id iid with
        | some h =>
          if h.quantity ≥ q then
            if h.quantity - q == 0 then
              .ok (st.filter (fun h' =>
                !(h'.account_id == tx.account_id && h'.instrument_id == iid)))
            else
              .ok (st.map (fun h' =>
                if h'.account_id == tx.account_id && h'.instrument_id == iid
                then { h' with quantity := h'.quantity - q, updated_at := now }
                else h'))
          else .error (.insufficientQuantity h.quantity q)
        | none => .error (.insufficientQuantity 0 q)
      | _ => .ok st
  | _, _ => .ok st

/-- `TransactionRepository.create`, restricted to its effect on the
holdings state: FIFO processing runs only for buy/sell transactions with an
instrument; on success the new state is committed, on a raised error the
session is rolled back, so the caller observes the original holdings
together with the re-raised error. -/
def createTransaction (st : List Holding) (tx : RepoTransaction)
    (now : Int) : List Holding × Option RepoError :=
  if (tx.transaction_type == .buy || tx.transaction_type == .sell)
      && tx.instrument_id.isSome then
    match updateHoldingsFifo st tx now with
    | .ok st' => (st', none)
    | .error e => (st, some e)
  else (st, none)

/-- Sequential application of transactions through
`TransactionRepository.create`, starting from a given holdings state.  A
failing transaction leaves the state unchanged (rollback). -/
def applyAll (st : List Holding) (txs : List RepoTransaction)
    (now : Int) : List Holding :=
  txs.foldl (fun s tx => (createTransaction s tx now).1) st

/-! ## Tax engine: `tax_calculator_rf.py` -/

/-- `SecurityType` of the tax calculator. -/
inductive SecurityType
  | stock | bond | etf | reit | derivative
deriving DecidableEq

/-- `AccountType` of the tax calculator. -/
inductive AccountType
  | regular | iis_a | iis_b
deriving DecidableEq

/-- Python `str.upper` on the characters the source's symbol matching can
meet: ASCII letters and the Cyrillic range (`а`–`я`, `ё`). -/
def pyUpperChar (c : Char) : Char :=
  if 'a' ≤ c && c ≤ 'z' then Char.ofNat (c.toNat - 32)
  else if 'а' ≤ c && c ≤ 'я' then Char.ofNat (c.toNat - 32)
  else if c = 'ё' then 'Ё'
  else c

/-- `symbol.upper()`. -/
def pyUpper (s : String) : String := String.mk (s.data.map pyUpperChar)

/-- Whether `needle` starts `hay` (character lists). -/
def charsStart : List Char → List Char → Bool
  | [], _ => true
  | _ :: _, [] => false
  | a :: as, b :: bs => a == b && charsStart as bs

/-- Whether `needle` occurs contiguously in the character list. -/
def charsSub (needle : List Char) : List Char → Bool
  | [] => needle.isEmpty
  | b :: bs => charsStart needle (b :: bs) || charsSub needle bs

/-- Python's `needle in hay` on strings. -/
def strContains (hay needle : String) : Bool := charsSub needle.data hay.data

/-- `TaxCalculatorRF._get_security_type`. -/
def get_security_type (symbol : String) : SecurityType :=
  let u := pyUpper symbol
  if strContains u "BOND" || strContains u "ОФЗ" || strContains u "КОРП" then
    .bond
  else if strContains u "ETF" then .etf
  else if strContains u "REIT" then .reit
  else .stock

/-- The duck-typed transaction record the tax calculator reads: `symbol`,
`type` (a string tag), `date`, `quantity`, `price`, `commission`
(nullable), `amount`, and the optional `profit` attribute tested with
`hasattr` in `_calculate_ldv_amount` (modelled as `Option`). -/
structure TaxTransaction where
  symbol : String
  tx_type : String
  date : PyDate
  quantity : ℚ
  price : ℚ
  commission : Option ℚ
  amount : ℚ
  profit : Option ℚ
deriving DecidableEq

/-- `transaction.commission or Decimal("0")` (`None` and `0` both give 0). -/
def orZero : Option ℚ → ℚ
  | none => 0
  | some c => c

/-- An open-lot dictionary entry of `_calculate_stock_pnl`:
`{"quantity": .., "price": .., "date": .., "commission": ..}`. -/
structure PyLot where
  quantity : ℚ
  price : ℚ
  date : PyDate
  commission : ℚ
deriving DecidableEq

/-- The `positions` dict of `_calculate_stock_pnl`: insertion-ordered map
from symbol to open-lot list, as an association list. -/
abbrev LotDict : Type := List (String × List PyLot)

/-- Membership test of the `positions` dict. -/
def dictContains (d : LotDict) (k : String) : Bool :=
  (d.find? (fun e => e.1 == k)).isSome

/-- `positions[symbol]` (defined keys only; `[]` as a junk default). -/
def dictGet (d : LotDict) (k : String) : List PyLot :=
  match d.find? (fun e => e.1 == k) with
  | some e => e.2
  | none => []

/-- `positions[symbol] = v` for an existing key. -/
def dictSet (d : LotDict) (k : String) (v : List PyLot) : LotDict :=
  d.map (fun e => if e.1 == k then (k, v) else e)

/-- `if symbol not in positions: positions[symbol] = []`. -/
def dictEnsure (d : LotDict) (k : String) : LotDict :=
  if dictContains d k then d else d ++ [(k, [])]

/-- The `while remaining_qty > 0 and positions[symbol]:` loop of
`_calculate_stock_pnl`'s sell branch: consumes lots oldest-first, returns
the realized pnl of the sale and the surviving lot list.  `txq` is
`transaction.quantity`, `sell_revenue = transaction.quantity * price`,
`sell_commission = transaction.commission or 0`. -/
def sellFifo (remaining txq sell_revenue sell_commission : ℚ) :
    List PyLot → ℚ × List PyLot
  | [] => (0, [])
  | pos :: rest =>
    if remaining > 0 then
      if pos.quantity ≤ remaining then
        let closed_qty := pos.quantity
        let buy_cost := closed_qty * pos.price + pos.commission
        let sell_part := (closed_qty / txq) * sell_revenue
        let sell_comm_part := (closed_qty / txq) * sell_commission
        let pnl := sell_part - buy_cost - sell_comm_part
        let r := sellFifo (remaining - closed_qty) txq sell_revenue
          sell_commission rest
        (pnl + r.1, r.2)
      else
        let closed_qty := remaining
        let buy_cost := closed_qty * pos.price
        let buy_comm_part := (closed_qty / pos.quantity) * pos.commission
        let sell_part := (closed_qty / txq) * sell_revenue
        let sell_comm_part := (closed_qty / txq) * sell_commission
        let pnl := sell_part - buy_cost - buy_comm_part - sell_comm_part
        (pnl,
          { pos with quantity := pos.quantity - closed_qty,
                     commission := pos.commission - buy_comm_part } :: rest)
    else (0, pos :: rest)

/-- One iteration of `_calculate_stock_pnl`'s main loop over a (sorted)
transaction: ensure the symbol's dict entry, then dispatch on the
transaction type. -/
def stockPnlStep (acc : ℚ × LotDict) (tx : TaxTransaction) : ℚ × LotDict :=
  let d := dictEnsure acc.2 tx.symbol
  if tx.tx_type == "buy" then
    (acc.1, dictSet d tx.symbol (dictGet d tx.symbol ++
      [{ quantity := tx.quantity, price := tx.price, date := tx.date,
         commission := orZero tx.commission }]))
  else if tx.tx_type == "sell" then
    let sell_revenue := tx.quantity * tx.price
    let r := sellFifo tx.quantity tx.quantity sell_revenue
      (orZero tx.commission) (dictGet d tx.symbol)
    (acc.1 + r.1, dictSet d tx.symbol r.2)
  else (acc.1, d)

/-- `_calculate_stock_pnl`'s full pass: sort by date (stably) and fold;
returns both the total realized pnl (the function's return value) and the
final open-lot dictionary (its local `positions` state). -/
def stockPnlRun (txs : List TaxTransaction) : ℚ × LotDict :=
  (pySortBy (fun a b => PyDate.ltb a.date b.date) txs).foldl
    stockPnlStep (0, [])

/-- `TaxCalculatorRF._calculate_stock_pnl`. -/
def calculate_stock_pnl (txs : List TaxTransaction) : ℚ :=
  (stockPnlRun txs).1

/-- `TaxCalculatorRF._calculate_bond_pnl` (delegates to the stock pass). -/
def calculate_bond_pnl (txs : List TaxTransaction) : ℚ :=
  calculate_stock_pnl txs

/-- `TaxCalculatorRF._filter_by_type`. -/
def filter_by_type (txs : List TaxTransaction) (st : SecurityType) :
    List TaxTransaction :=
  txs.filter (fun t => get_security_type t.symbol == st)

/-- `TaxCalculatorRF._calculate_dividend_income`. -/
def calculate_dividend_income (txs : List TaxTransaction) : ℚ :=
  (txs.filter (fun t => t.tx_type == "dividend")).foldl
    (fun s t => s + t.amount) 0

/-- `TaxCalculatorRF._calculate_coupon_income`. -/
def calculate_coupon_income (txs : List TaxTransaction) : ℚ :=
  (txs.filter (fun t => t.tx_type == "coupon")).foldl
    (fun s t => s + t.amount) 0

/-- `TaxCalculatorRF._calculate_total_expenses`. -/
def calculate_total_expenses (txs : List TaxTransaction) : ℚ :=
  txs.foldl (fun s t => s + orZero t.commission) 0

/-- `TaxCalculatorRF._is_eligible_for_ldv`. -/
def is_eligible_for_ldv (symbol : String) : Bool :=
  let st := get_security_type symbol
  st == .stock || st == .bond

/-- `TaxCalculatorRF._calculate_ldv_amount`: cap of 3,000,000 RUB per
holding year, with `holding_years = max(3, sale year - cutoff year)`,
applied to the transaction's positive `profit` attribute when present. -/
def calculate_ldv_amount (tx : TaxTransaction) (cutoff : PyDate) : ℚ :=
  let holding_years : Int := max 3 (tx.date.year - cutoff.year)
  let max_total_exemption : ℚ := 3000000 * (holding_years : ℚ)
  match tx.profit with
  | some p => if p > 0 then min p max_total_exemption else 0
  | none => 0

/-- `TaxCalculatorRF._calculate_ldv_exemption`: sums `ldv_amount` over
eligible sells dated on or after `date(tax_year - 3, 1, 1)`. -/
def calculate_ldv_exemption (txs : List TaxTransaction)
    (tax_year : Int) : ℚ :=
  let ldv_cutoff : PyDate := ⟨tax_year - 3, 1, 1⟩
  txs.foldl (fun ex t =>
    if t.tx_type == "sell" && PyDate.leb ldv_cutoff t.date
        && is_eligible_for_ldv t.symbol then
      ex + calculate_ldv_amount t ldv_cutoff
    else ex) 0

/-- The portfolio record the tax calculator reads: tax regime plus the
optional `transactions` attribute probed with `hasattr`. -/
structure TaxPortfolio where
  account_type : AccountType
  transactions : Option (List TaxTransaction)
deriving DecidableEq

/-- `TaxCalculatorRF._get_annual_deposits`: the year's deposits, capped by
the 1,000,000 RUB annual contribution ceiling. -/
def get_annual_deposits (p : TaxPortfolio) (tax_year : Int) : ℚ :=
  match p.transactions with
  | none => 0
  | some txs =>
    let annual_deposits :=
      (txs.filter (fun t =>
        t.tx_type == "deposit" && t.date.year == tax_year)).foldl
        (fun s t => s + t.amount) 0
    min annual_deposits 1000000

/-- `TaxCalculatorRF._calculate_iis_deduction`: per IIS-A portfolio, the
lesser of its annual deposits and 400,000 RUB, summed. -/
def calculate_iis_deduction (ps : List TaxPortfolio) (tax_year : Int) : ℚ :=
  (ps.filter (fun p => p.account_type == .iis_a)).foldl
    (fun s p => s + min (get_annual_deposits p tax_year) 400000) 0

/-- `TaxCalculatorRF._get_year_loss` (an explicit stub returning 0 in the
source). -/
def get_year_loss (_ps : List TaxPortfolio) (_year : Int) : ℚ := 0

/-- `TaxCalculatorRF._calculate_loss_carryover`: sums positive year losses
over `range(tax_year - 10, tax_year)` for positive years. -/
def calculate_loss_carryover (ps : List TaxPortfolio) (tax_year : Int) : ℚ :=
  ((List.range 10).map (fun k => tax_year - 10 + (k : Int))).foldl
    (fun s y =>
      if y > 0 then
        (if get_year_loss ps y > 0 then s + get_year_loss ps y else s)
      else s) 0

/-- A `TaxPosition` as `_build_tax_positions` constructs it (the optional
fields it leaves at their defaults are omitted). -/
structure TaxPosition where
  symbol : String
  security_type : SecurityType
  account_type : AccountType
  quantity : ℚ
  average_price : ℚ
  purchase_date : PyDate
deriving DecidableEq

/-- `TaxCalculatorRF._calculate_average_price`. -/
def calculate_average_price (txs : List TaxTransaction) : ℚ :=
  let buys := txs.filter (fun t => t.tx_type == "buy")
  let total_cost := buys.foldl (fun s t => s + t.quantity * t.price) 0
  let total_quantity := buys.foldl (fun s t => s + t.quantity) 0
  if total_quantity > 0 then total_cost / total_quantity else 0

/-- `min(t.date for t in symbol_transactions if t.type == "buy")`; the
empty case (on which Python would raise) uses a junk default, it is
unreachable on the inputs the claims quantify over. -/
def minBuyDate (txs : List TaxTransaction) : PyDate :=
  match (txs.filter (fun t => t.tx_type == "buy")).map
      (fun t => t.date) with
  | [] => ⟨1, 1, 1⟩
  | d :: ds => ds.foldl (fun a b => if PyDate.ltb b a then b else a) d

/-- The symbol set `set(t.symbol for t in transactions)` with its iteration
order modelled as first-occurrence order (within one interpreter process the
order is fixed; no claim depends on the particular order). -/
def dedupSymbols (txs : List TaxTransaction) : List String :=
  txs.foldl (fun acc t =>
    if acc.contains t.symbol then acc else acc ++ [t.symbol]) []

/-- `TaxCalculatorRF._build_tax_positions`. -/
def build_tax_positions (txs : List TaxTransaction) : List TaxPosition :=
  (dedupSymbols txs).filterMap (fun sym =>
    let symbol_transactions := txs.filter (fun t => t.symbol == sym)
    let quantity :=
      (symbol_transactions.filter (fun t =>
        t.tx_type == "buy" || t.tx_type == "sell")).foldl
        (fun s t => if t.tx_type == "buy" then s + t.quantity
                    else s - t.quantity) 0
    if quantity > 0 then
      some { symbol := sym, security_type := get_security_type sym,
             account_type := .regular, quantity := quantity,
             average_price := calculate_average_price symbol_transactions,
             purchase_date := minBuyDate symbol_transactions }
    else none)

/-- A recommendation of `_generate_recommendations`: the four fixed advisory
strings, plus the near-LDV advisory whose text interpolates the symbol and
the remaining holding years (`3 - holding_period`, kept exact here). -/
inductive Recommendation
  | openIis
  | lossOffsetHint
  | declarationDeadline
  | paymentDeadline
  | nearLdv (symbol : String) (remaining_years : ℚ)
deriving DecidableEq

/-- `TaxCalculatorRF._generate_recommendations`: the four base strings,
then for every buy transaction whose holding period
`(date.today() - transaction.date).days / 365.25` exceeds 2.5 years a
near-LDV advisory.  `today` models `date.today()`. -/
def generate_recommendations (txs : List TaxTransaction)
    (today : PyDate) : List Recommendation :=
  txs.foldl (fun acc t =>
    if t.tx_type == "buy" then
      let holding_period : ℚ :=
        ((PyDate.subDays today t.date : Int) : ℚ) / (1461 / 4)
      if holding_period > 5 / 2 then
        acc ++ [.nearLdv t.symbol (3 - holding_period)]
      else acc
    else acc)
    [.openIis, .lossOffsetHint, .declarationDeadline, .paymentDeadline]

/-- `TaxCalculationResult`. -/
structure TaxCalculationResult where
  total_income : ℚ
  total_expenses : ℚ
  taxable_income : ℚ
  ndfl_base : ℚ
  ndfl_amount : ℚ
  ndfl_rate : ℚ
  ldv_exemption : ℚ
  iis_deduction : ℚ
  loss_carryover : ℚ
  stock_pnl : ℚ
  bond_pnl : ℚ
  dividend_income : ℚ
  coupon_income : ℚ
  positions : List TaxPosition
  recommendations : List Recommendation
deriving DecidableEq

/-- A `TaxCalculatorRF` instance: `__init__` stores `is_resident` and
derives the fixed `ndfl_rate`. -/
structure TaxCalculatorRF where
  is_resident : Bool
  ndfl_rate : ℚ
deriving DecidableEq

/-- `TaxCalculatorRF.__init__`. -/
def TaxCalculatorRF.init (is_resident : Bool) : TaxCalculatorRF :=
  { is_resident := is_resident,
    ndfl_rate := if is_resident then 13 / 100 else 30 / 100 }

/-- `TaxCalculatorRF.calculate_taxes` with `tax_year` supplied (the
`tax_year is None` default reads the wall clock) and `date.today()` of the
recommendation generator passed explicitly as `today`. -/
def calculate_taxes (tc : TaxCalculatorRF)
    (transactions : List TaxTransaction) (portfolios : List TaxPortfolio)
    (tax_year : Int) (today : PyDate) : TaxCalculationResult :=
  let year_transactions :=
    transactions.filter (fun t => t.date.year == tax_year)
  let stock_transactions := filter_by_type year_transactions .stock
  let bond_transactions := filter_by_type year_transactions .bond
  let stock_pnl := calculate_stock_pnl stock_transactions
  let bond_pnl := calculate_bond_pnl bond_transactions
  let dividend_income := calculate_dividend_income year_transactions
  let coupon_income := calculate_coupon_income year_transactions
  let total_income := stock_pnl + bond_pnl + dividend_income + coupon_income
  let total_expenses := calculate_total_expenses year_transactions
  let taxable_income := max (total_income - total_expenses) 0
  let ldv_exemption := calculate_ldv_exemption year_transactions tax_year
  let iis_deduction := calculate_iis_deduction portfolios tax_year
  let loss_carryover := calculate_loss_carryover portfolios tax_year
  let ndfl_base :=
    max (taxable_income - ldv_exemption - iis_deduction - loss_carryover) 0
  let ndfl_amount := ndfl_base * tc.ndfl_rate
  { total_income := total_income, total_expenses := total_expenses,
    taxable_income := taxable_income, ndfl_base := ndfl_base,
    ndfl_amount := ndfl_amount, ndfl_rate := tc.ndfl_rate,
    ldv_exemption := ldv_exemption, iis_deduction := iis_deduction,
    loss_carryover := loss_carryover, stock_pnl := stock_pnl,
    bond_pnl := bond_pnl, dividend_income := dividend_income,
    coupon_income := coupon_income,
    positions := build_tax_positions year_transactions,
    recommendations := generate_recommendations year_transactions today }

/-! ## Return calculator: `portfolio_analytics.py` (`calculate_twr`)

`calculate_twr` only orders and subtracts dates, so dates are modelled
directly as day ordinals in `ℤ`. -/

/-- A `PricePoint` (date as day ordinal, portfolio value). -/
structure PricePoint where
  date : Int
  value : ℚ
deriving DecidableEq

/-- A `CashFlow` (date as day ordinal, signed amount). -/
structure CashFlow where
  date : Int
  amount : ℚ
deriving DecidableEq

/-- The sorted price points falling in the requested window:
`[p for p in price_points if p.date >= price_points[-1].date - period_days]`
after sorting by date. -/
def twrWindow (price_points : List PricePoint) (period_days : Int) :
    List PricePoint :=
  let pps := pySortBy (fun a b : PricePoint => a.date < b.date) price_points
  let end_date := (pps.getLast?.getD ⟨0, 0⟩).date
  pps.filter (fun p => end_date - period_days ≤ p.date)

/-- The sub-period chaining loop of `calculate_twr`: over consecutive price
points, adjust the base by the net cash flow dated in
`(current_date, next_date]` and multiply in the sub-period return when the
adjusted base is positive; a non-positive adjusted base leaves the product
untouched (the source's `if adjusted_current_value > 0` has no else). -/
def twrChainLoop (flows : List CashFlow) : List PricePoint → ℚ → ℚ
  | p :: q :: rest, acc =>
    let period_cashflows :=
      flows.filter (fun c => p.date < c.date && c.date ≤ q.date)
    let total_cashflow := period_cashflows.foldl (fun s c => s + c.amount) 0
    let adjusted_current_value := p.value + total_cashflow
    twrChainLoop flows (q :: rest)
      (if adjusted_current_value > 0 then
        acc * (q.value / adjusted_current_value)
      else acc)
  | _, acc => acc

/-- The exact-arithmetic part of `calculate_twr`: the `None` guards and the
geometrically chained return in percent, before any annualisation. -/
def twrChain (price_points : List PricePoint) (cash_flows : List CashFlow)
    (period_days : Int) : Option ℚ :=
  if price_points.length < 2 then none
  else
    let pps := pySortBy (fun a b : PricePoint => a.date < b.date) price_points
    let cfs := pySortBy (fun a b : CashFlow => a.date < b.date) cash_flows
    let end_date := (pps.getLast?.getD ⟨0, 0⟩).date
    let start_date := end_date - period_days
    let filtered_prices := twrWindow price_points period_days
    let filtered_cashflows :=
      cfs.filter (fun c => start_date ≤ c.date && c.date ≤ end_date)
    if filtered_prices.length < 2 then none
    else some ((twrChainLoop filtered_cashflows filtered_prices 1 - 1) * 100)

/-- `PortfolioAnalyticsService.calculate_twr`.  For `period_days ≤ 365` the
chained percentage is returned.  For `period_days > 365` the source
attempts `(1 + twr_percent/100) ** (1/years)` with
`years = period_days / 365.25`; there `twr_percent` is a `Decimal` (seeded
from `Decimal('1.0')`) while `1/years` is a `float`, and `Decimal.__pow__`
with a `float` operand raises `TypeError`, which the method's blanket
`except Exception` catches, returning `None` — so every
`period_days > 365` call on which the chain was computed yields `None`,
never an annualised number. -/
noncomputable def calculate_twr (price_points : List PricePoint)
    (cash_flows : List CashFlow) (period_days : Int) : Option ℝ :=
  match twrChain price_points cash_flows period_days with
  | none => none
  | some twr_percent =>
    if period_days > 365 then none
    else some ((twr_percent : ℝ))

/-! ## Concrete inputs used by the claim theorems -/

/-- Buy 10 units at 100 (the spec's FIFO scenario, first buy). -/
def fifoBuy1 : TaxTransaction :=
  { symbol := "AAPL", tx_type := "buy", date := ⟨2024, 1, 10⟩, quantity := 10,
    price := 100, commission := none, amount := 0, profit := none }

/-- Buy 10 units at 110 (second buy). -/
def fifoBuy2 : TaxTransaction :=
  { symbol := "AAPL", tx_type := "buy", date := ⟨2024, 2, 10⟩, quantity := 10,
    price := 110, commission := none, amount := 0, profit := none }

/-- Sell 10 units at 120. -/
def fifoSell : TaxTransaction :=
  { symbol := "AAPL", tx_type := "sell", date := ⟨2024, 3, 10⟩, quantity := 10,
    price := 120, commission := none, amount := 0, profit := none }

/-- A sell of an LDV-eligible stock with realized gain 10,000,000 RUB in
tax year 2024 (position opened three years before the cutoff scenario). -/
def ldvSell : TaxTransaction :=
  { symbol := "SBER", tx_type := "sell", date := ⟨2024, 6, 15⟩,
    quantity := 100, price := 200, commission := none, amount := 0,
    profit := some 10000000 }

/-- A buy transaction of tax year 2021 used to exhibit the wall-clock
dependence of recommendation generation. -/
def recBuy : TaxTransaction :=
  { symbol := "GAZP", tx_type := "buy", date := ⟨2021, 1, 1⟩, quantity := 10,
    price := 100, commission := none, amount := 0, profit := none }

/-- A sell of 5 units of instrument 2 on account 1 (used against an empty
holdings state). -/
def oversellTx : RepoTransaction :=
  { account_id := 1, instrument_id := some 2, transaction_type := .sell,
    quantity := some 5, price := 50, currency := "RUB" }

/-- A buy of 10 units of instrument 2 on account 1 at price 100. -/
def buyTx10 : RepoTransaction :=
  { account_id := 1, instrument_id := some 2, transaction_type := .buy,
    quantity := some 10, price := 100, currency := "RUB" }

/-- A sell of 4 units of instrument 2 on account 1. -/
def sellTx4 : RepoTransaction :=
  { account_id := 1, instrument_id := some 2, transaction_type := .sell,
    quantity := some 4, price := 120, currency := "RUB" }

/-- Two holdings have the same (account, instrument) key. -/
def sameKey (a b : Holding) : Prop :=
  a.account_id = b.account_id ∧ a.instrument_id = b.instrument_id

/-- Well-formed holdings state: all quantities nonnegative (the table's
`quantity >= 0` check constraint) and at most one row per
(account, instrument) key (the table's unique index). -/
def wfState (st : List Holding) : Prop :=
  (∀ h ∈ st, 0 ≤ h.quantity) ∧ st.Pairwise (fun a b => ¬ sameKey a b)

/-! ## Helper lemmas -/

theorem gst_sber : get_security_type "SBER" = .stock := by decide

theorem elig_sber : is_eligible_for_ldv "SBER" = true := by decide

theorem beq_sell_buy : ("sell" == "buy") = false := by decide

theorem beq_sell_sell : ("sell" == "sell") = true := by decide

theorem sell_ne_buy : ¬ (("sell" : String) = "buy") := by decide

/-! ## Claim theorems -/

/-- C1: for the history buy(10@100), buy(10@110), sell(10@120) on one
instrument with zero commissions, the year-scoped FIFO pass
(`_calculate_stock_pnl`) returns a realized gain of exactly 200, and the
remaining open lot is the second buy of 10 units at unit cost 110. -/
theorem fifo_gain_200_second_lot_remains :
    calculate_stock_pnl [fifoBuy1, fifoBuy2, fifoSell] = 200 ∧
    (stockPnlRun [fifoBuy1, fifoBuy2, fifoSell]).2 =
      [("AAPL", [{ quantity := 10, price := 110, date := ⟨2024, 2, 10⟩,
                   commission := 0 }])] := by
  constructor <;>
  · norm_num [calculate_stock_pnl, stockPnlRun, pySortBy, pyInsert,
      PyDate.ltb, stockPnlStep, dictEnsure, dictContains, dictGet, dictSet,
      sellFifo, fifoBuy1, fifoBuy2, fifoSell, orZero, beq_sell_buy,
      beq_sell_sell, sell_ne_buy]

/-- C3 (counterexample): for a tax year containing the single LDV-eligible
sell with realized gain 10,000,000 RUB, `calculate_taxes` does not report
an LDV exemption of 3,000,000 RUB. -/
theorem ldv_exemption_is_not_one_year_cap :
    (calculate_taxes (TaxCalculatorRF.init true) [ldvSell] [] 2024
      ⟨2025, 3, 1⟩).ldv_exemption ≠ 3000000 := by
  simp only [calculate_taxes]
  norm_num [ldvSell, calculate_ldv_exemption, calculate_ldv_amount,
    elig_sber, PyDate.leb, List.filter]

/-- C3 (amended): on that input `calculate_taxes` reports an LDV exemption
of 9,000,000 RUB — the 3,000,000 RUB per-year cap times
`max(3, sale year - cutoff year) = 3` holding years — so a 10,000,000 RUB
gain is exempted up to 9,000,000 RUB, not up to 3,000,000 RUB. -/
theorem ldv_exemption_is_three_year_cap :
    (calculate_taxes (TaxCalculatorRF.init true) [ldvSell] [] 2024
      ⟨2025, 3, 1⟩).ldv_exemption = 9000000 := by
  simp only [calculate_taxes]
  norm_num [ldvSell, calculate_ldv_exemption, calculate_ldv_amount,
    elig_sber, PyDate.leb, List.filter]

/-- C4: for every input, the result of `calculate_taxes` satisfies
`ndfl_base = max(taxable_income - ldv_exemption - iis_deduction -
loss_carryover, 0)` and `ndfl_amount = ndfl_base * ndfl_rate`, with the
rate fixed by the constructor at 0.13 for residents and 0.30 otherwise;
in particular `ndfl_base` is never negative. -/
theorem ndfl_base_and_amount_formula (r : Bool) (txs : List TaxTransaction)
    (ps : List TaxPortfolio) (tax_year : Int) (today : PyDate) :
    (calculate_taxes (TaxCalculatorRF.init r) txs ps tax_year
        today).ndfl_base =
      max ((calculate_taxes (TaxCalculatorRF.init r) txs ps tax_year
            today).taxable_income -
          (calculate_taxes (TaxCalculatorRF.init r) txs ps tax_year
            today).ldv_exemption -
          (calculate_taxes (TaxCalculatorRF.init r) txs ps tax_year
            today).iis_deduction -
          (calculate_taxes (TaxCalculatorRF.init r) txs ps tax_year
            today).loss_carryover) 0 ∧
    (calculate_taxes (TaxCalculatorRF.init r) txs ps tax_year
        today).ndfl_amount =
      (calculate_taxes (TaxCalculatorRF.init r) txs ps tax_year
          today).ndfl_base *
        (calculate_taxes (TaxCalculatorRF.init r) txs ps tax_year
          today).ndfl_rate ∧
    (calculate_taxes (TaxCalculatorRF.init r) txs ps tax_year
        today).ndfl_rate = (if r then 13 / 100 else 30 / 100) ∧
    0 ≤ (calculate_taxes (TaxCalculatorRF.init r) txs ps tax_year
        today).ndfl_base := by
  refine ⟨rfl, rfl, rfl, ?_⟩
  simp only [calculate_taxes]
  exact le_max_right _ _

/-- The `None` cases of the chained-return computation are exactly the
too-few-price-points guards. -/
theorem twrChain_none_iff (pps : List PricePoint) (cfs : List CashFlow)
    (d : Int) :
    twrChain pps cfs d = none ↔
      (pps.length < 2 ∨ (twrWindow pps d).length < 2) := by
  unfold twrChain
  by_cases h1 : pps.length < 2
  · simp [h1]
  · by_cases h2 : (twrWindow pps d).length < 2
    · simp [h1, h2]
    · simp [h1, h2]

/-- C5 (counterexample): with price points (day 0, 100), (day 10, 50),
(day 20, 55) and a −60 cash flow on day 20, the second sub-period's
adjusted base is 50 + (−60) = −10 ≤ 0, yet `calculate_twr` over a 30-day
period returns the numeric value −50 (percent) instead of `None`: the
degenerate sub-period is skipped, not treated as a failure. -/
theorem twr_nonpositive_base_still_numeric :
    ((50 : ℚ) + (-60) ≤ 0) ∧
    calculate_twr [⟨0, 100⟩, ⟨10, 50⟩, ⟨20, 55⟩] [⟨20, -60⟩] 30 =
      some ((-50 : ℚ) : ℝ) := by
  refine ⟨by norm_num, ?_⟩
  have hc : twrChain [⟨0, 100⟩, ⟨10, 50⟩, ⟨20, 55⟩] [⟨20, -60⟩] 30 =
      some (-50) := by
    norm_num [twrChain, twrWindow, pySortBy, pyInsert, twrChainLoop]
  unfold calculate_twr
  rw [hc]
  norm_num

/-- C5 (amended): for a non-annualised period (`period_days ≤ 365`, the
annualisation formula being claim C6's concern), `calculate_twr` returns
`None` exactly when fewer than 2 price points are supplied or fewer than 2
fall in the requested window; a sub-period with non-positive adjusted base
never produces `None`. -/
theorem twr_none_iff_too_few_points (pps : List PricePoint)
    (cfs : List CashFlow) (d : Int) (hd : d ≤ 365) :
    calculate_twr pps cfs d = none ↔
      (pps.length < 2 ∨ (twrWindow pps d).length < 2) := by
  rw [← twrChain_none_iff pps cfs d]
  unfold calculate_twr
  cases hc : twrChain pps cfs d with
  | none => simp
  | some r =>
    dsimp only
    rw [if_neg (not_lt.mpr hd)]
    simp

/-- C5 witness. -/
theorem twr_none_iff_too_few_points_witness :
    ((30 : Int) ≤ 365) ∧
    (calculate_twr [⟨0, 100⟩] [] 30 = none ↔
      ([(⟨0, 100⟩ : PricePoint)].length < 2 ∨
        (twrWindow [⟨0, 100⟩] 30).length < 2)) :=
  ⟨by decide, twr_none_iff_too_few_points [⟨0, 100⟩] [] 30 (by decide)⟩

/-- C6 (counterexample): for price points (day 0, 100), (day 10, 110) — a
chained return of 10% — and `period_days = 731 > 365`, `calculate_twr`
returns `None`, and in particular not the claimed annualisation
`(1+r)^(365/period_days) - 1` in percent: the source's annualisation
expression `(1 + twr_percent/100) ** (1/years)` applies `**` to a
`Decimal` and a `float`, raising `TypeError`, which the method's blanket
`except` converts into a `None` result on every `period_days > 365`
input. -/
theorem twr_no_annualized_value_returned :
    calculate_twr [⟨0, 100⟩, ⟨10, 110⟩] [] 731 = none ∧
    calculate_twr [⟨0, 100⟩, ⟨10, 110⟩] [] 731 ≠
      some ((((1 : ℝ) + 10 / 100) ^ ((365 : ℝ) / 731) - 1) * 100) := by
  have hc : twrChain [⟨0, 100⟩, ⟨10, 110⟩] [] 731 = some 10 := by
    norm_num [twrChain, twrWindow, pySortBy, pyInsert, twrChainLoop]
  have he : calculate_twr [⟨0, 100⟩, ⟨10, 110⟩] [] 731 = none := by
    unfold calculate_twr
    rw [hc]
    dsimp only
    rw [if_pos (by norm_num : (731 : Int) > 365)]
  exact ⟨he, by rw [he]; simp⟩

/-- C6 (amended): whenever the chained return `r` (in percent) is computed,
`calculate_twr` returns the unannualised chained percentage for
`period_days ≤ 365`, and `None` for `period_days > 365`: the annualisation
expression raises `TypeError` (`Decimal ** float`) and the method's
blanket `except Exception` turns it into `None`, so no annualised value is
ever produced. -/
theorem twr_over_year_returns_none (pps : List PricePoint)
    (cfs : List CashFlow) (d : Int) (r : ℚ)
    (hc : twrChain pps cfs d = some r) :
    calculate_twr pps cfs d =
      (if 365 < d then none else some ((r : ℝ))) := by
  unfold calculate_twr
  rw [hc]

/-- C6 witness. -/
theorem twr_over_year_returns_none_witness :
    twrChain [⟨0, 100⟩, ⟨10, 110⟩] [] 400 = some 10 ∧
    calculate_twr [⟨0, 100⟩, ⟨10, 110⟩] [] 400 =
      (if 365 < (400 : Int) then none else some (((10 : ℚ) : ℝ))) :=
  ⟨by norm_num [twrChain, twrWindow, pySortBy, pyInsert, twrChainLoop],
   twr_over_year_returns_none [⟨0, 100⟩, ⟨10, 110⟩] [] 400 10
     (by norm_num [twrChain, twrWindow, pySortBy, pyInsert, twrChainLoop])⟩

/-- C8 (counterexample): two calls of `calculate_taxes` on the same
calculator instance with identical transactions, portfolios and tax year
return different results when the wall clock differs: the recommendation
generator reads `date.today()`.  With a buy dated 2021-01-01 in the 2021
slice, on 2023-06-01 the holding period is 881/365.25 < 2.5 years (no
near-LDV advisory), on 2023-12-01 it is 1064/365.25 > 2.5 (advisory
appended), so the two results' recommendation lists differ. -/
theorem calculate_taxes_reads_wall_clock :
    calculate_taxes (TaxCalculatorRF.init true) [recBuy] [] 2021
        ⟨2023, 6, 1⟩ ≠
      calculate_taxes (TaxCalculatorRF.init true) [recBuy] [] 2021
        ⟨2023, 12, 1⟩ := by
  intro h
  have hrec := congrArg TaxCalculationResult.recommendations h
  have e1 : (calculate_taxes (TaxCalculatorRF.init true) [recBuy] [] 2021
      ⟨2023, 6, 1⟩).recommendations =
      [.openIis, .lossOffsetHint, .declarationDeadline, .paymentDeadline] := by
    simp only [calculate_taxes]
    norm_num [recBuy, generate_recommendations, PyDate.subDays,
      PyDate.toOrdinal, List.filter]
  have e2 : (calculate_taxes (TaxCalculatorRF.init true) [recBuy] [] 2021
      ⟨2023, 12, 1⟩).recommendations =
      [.openIis, .lossOffsetHint, .declarationDeadline, .paymentDeadline,
       .nearLdv "GAZP" (3 - 4256 / 1461)] := by
    simp only [calculate_taxes]
    norm_num [recBuy, generate_recommendations, PyDate.subDays,
      PyDate.toOrdinal, List.filter]
  rw [e1, e2] at hrec
  exact absurd (congrArg List.length hrec) (by norm_num)

/-- C8 (amended): `calculate_taxes` is a deterministic pure function of its
arguments together with the current date: two calls on the same calculator
instance with identical transactions, portfolios, tax year and the same
`date.today()` return identical results in every field. -/
theorem calculate_taxes_deterministic (tc : TaxCalculatorRF)
    (txs txs' : List TaxTransaction) (ps ps' : List TaxPortfolio)
    (y y' : Int) (today today' : PyDate)
    (htx : txs = txs') (hps : ps = ps') (hy : y = y')
    (htoday : today = today') :
    calculate_taxes tc txs ps y today =
      calculate_taxes tc txs' ps' y' today' := by
  rw [htx, hps, hy, htoday]

/-- C8 witness. -/
theorem calculate_taxes_deterministic_witness :
    calculate_taxes (TaxCalculatorRF.init true) [recBuy] [] 2021
        ⟨2023, 6, 1⟩ =
      calculate_taxes (TaxCalculatorRF.init true) [recBuy] [] 2021
        ⟨2023, 6, 1⟩ :=
  calculate_taxes_deterministic (TaxCalculatorRF.init true) [recBuy] [recBuy]
    [] [] 2021 2021 ⟨2023, 6, 1⟩ ⟨2023, 6, 1⟩ rfl rfl rfl rfl

/-- C2: a sell whose quantity exceeds the open quantity of the
(account, instrument) holding — including the no-holding case — makes
`create` raise the insufficient-quantity error carrying the available and
requested quantities, and the holdings state is rolled back unchanged. -/
theorem oversell_raises_and_rolls_back (st : List Holding)
    (tx : RepoTransaction) (now iid : Int) (q : ℚ)
    (hty : tx.transaction_type = .sell)
    (hiid : tx.instrument_id = some iid)
    (hq : tx.quantity = some q)
    (hopen : 0 ≤ openQty st tx.account_id iid)
    (hover : openQty st tx.account_id iid < q) :
    createTransaction st tx now =
      (st, some (.insufficientQuantity (openQty st tx.account_id iid) q)) := by
  have hqpos : 0 < q := lt_of_le_of_lt hopen hover
  unfold createTransaction
  rw [hty, hiid]
  rw [if_pos (show ((TransactionType.sell == TransactionType.buy
      || TransactionType.sell == TransactionType.sell)
      && (some iid).isSome) = true from rfl)]
  unfold updateHoldingsFifo
  rw [hty, hiid, hq]
  dsimp only
  rw [if_neg (by simp [hqpos.ne'] : ¬ (q == 0) = true)]
  cases hf : findHolding st tx.account_id iid with
  | none =>
    dsimp only
    simp only [openQty, hf]
  | some h =>
    have hlt : h.quantity < q := by
      simpa only [openQty, hf] using hover
    dsimp only
    rw [if_neg (not_le.mpr hlt)]
    simp only [openQty, hf]

/-- C2 witness: selling 5 units against an empty holdings state raises the
insufficient-quantity error (available 0, requested 5) and leaves the
state empty. -/
theorem oversell_raises_and_rolls_back_witness :
    oversellTx.transaction_type = .sell ∧
    oversellTx.instrument_id = some 2 ∧
    oversellTx.quantity = some 5 ∧
    (0 : ℚ) ≤ openQty [] oversellTx.account_id 2 ∧
    openQty [] oversellTx.account_id 2 < 5 ∧
    createTransaction [] oversellTx 0 =
      ([], some (.insufficientQuantity (openQty [] oversellTx.account_id 2)
        5)) :=
  ⟨rfl, rfl, rfl, by norm_num [openQty, findHolding],
   by norm_num [openQty, findHolding],
   oversell_raises_and_rolls_back [] oversellTx 0 2 5 rfl rfl rfl
     (by norm_num [openQty, findHolding])
     (by norm_num [openQty, findHolding])⟩

/-- C7: a buy with an existing (account, instrument) holding of quantity
`h.quantity` and average price `h.avg_price` recombines the weighted
average, dividing by the post-transaction total quantity:
`new_avg = (old_qty*old_avg + buy_qty*buy_price) / (old_qty + buy_qty)`,
and sets the new quantity to `old_qty + buy_qty`; a buy with no existing
holding creates one with the buy's quantity and price.  The nonnegativity
hypothesis on the stored quantity is the holdings table's
`quantity >= 0` check constraint. -/
theorem buy_weighted_average_recombination (st : List Holding)
    (tx : RepoTransaction) (now iid : Int) (q : ℚ)
    (hty : tx.transaction_type = .buy)
    (hiid : tx.instrument_id = some iid)
    (hq : tx.quantity = some q)
    (hqpos : 0 < q)
    (hinv : ∀ h0, findHolding st tx.account_id iid = some h0 →
      0 ≤ h0.quantity) :
    createTransaction st tx now =
      (match findHolding st tx.account_id iid with
       | some h =>
         st.map (fun h' =>
           if h'.account_id == tx.account_id && h'.instrument_id == iid then
             { h' with quantity := h.quantity + q,
                       avg_price := (h.quantity * h.avg_price + q * tx.price)
                         / (h.quantity + q),
                       updated_at := now }
           else h')
       | none =>
         st ++ [{ account_id := tx.account_id, instrument_id := iid,
                  quantity := q, avg_price := tx.price,
                  currency := tx.currency, updated_at := now }],
       none) := by
  unfold createTransaction
  rw [hty, hiid]
  rw [if_pos (show ((TransactionType.buy == TransactionType.buy
      || TransactionType.buy == TransactionType.sell)
      && (some iid).isSome) = true from rfl)]
  unfold updateHoldingsFifo
  rw [hty, hiid, hq]
  dsimp only
  rw [if_neg (by simp [hqpos.ne'] : ¬ (q == 0) = true)]
  cases hf : findHolding st tx.account_id iid with
  | none => dsimp only
  | some h =>
    have hpos : 0 < h.quantity + q :=
      add_pos_of_nonneg_of_pos (hinv h hf) hqpos
    dsimp only
    rw [if_pos hpos]

/-- A pre-existing holding of 5 units at average price 80 on
(account 1, instrument 2). -/
def holding52 : Holding :=
  { account_id := 1, instrument_id := 2, quantity := 5, avg_price := 80,
    currency := "RUB", updated_at := 0 }

/-- C7 witness: buying 10 units at 100 on top of 5 units at 80 gives
15 units at (5*80 + 10*100)/15. -/
theorem buy_weighted_average_recombination_witness :
    buyTx10.transaction_type = .buy ∧
    buyTx10.instrument_id = some 2 ∧
    buyTx10.quantity = some 10 ∧
    (0 : ℚ) < 10 ∧
    createTransaction [holding52] buyTx10 7 =
      (match findHolding [holding52] buyTx10.account_id 2 with
       | some h =>
         [holding52].map (fun h' =>
           if h'.account_id == buyTx10.account_id
               && h'.instrument_id == 2 then
             { h' with quantity := h.quantity + 10,
                       avg_price :=
                         (h.quantity * h.avg_price + 10 * buyTx10.price)
                           / (h.quantity + 10),
                       updated_at := 7 }
           else h')
       | none =>
         [holding52] ++ [{ account_id := buyTx10.account_id,
                           instrument_id := 2, quantity := 10,
                           avg_price := buyTx10.price,
                           currency := buyTx10.currency, updated_at := 7 }],
       none) :=
  ⟨rfl, rfl, rfl, by norm_num,
   buy_weighted_average_recombination [holding52] buyTx10 7 2 10 rfl rfl rfl
     (by norm_num)
     (by
       intro h0 hh
       rw [show findHolding [holding52] buyTx10.account_id 2 =
         some holding52 from rfl] at hh
       obtain rfl : holding52 = h0 := by injection hh
       norm_num [holding52])⟩

/-- C10: a sell that succeeds without depleting the holding (open quantity
strictly above the sell quantity) only rewrites the matched holding's
`quantity` (decreased by exactly the sell quantity) and its `updated_at`
(set to the current clock); `avg_price`, `currency`, `account_id` and
`instrument_id` are carried over unchanged, and every other holding is
untouched. -/
theorem partial_sell_changes_only_quantity (st : List Holding)
    (tx : RepoTransaction) (now iid : Int) (q : ℚ) (h : Holding)
    (hty : tx.transaction_type = .sell)
    (hiid : tx.instrument_id = some iid)
    (hq : tx.quantity = some q)
    (hqpos : 0 < q)
    (hf : findHolding st tx.account_id iid = some h)
    (hlt : q < h.quantity) :
    createTransaction st tx now =
      (st.map (fun h' =>
        if h'.account_id == tx.account_id && h'.instrument_id == iid then
          { h' with quantity := h'.quantity - q, updated_at := now }
        else h'), none) := by
  unfold createTransaction
  rw [hty, hiid]
  rw [if_pos (show ((TransactionType.sell == TransactionType.buy
      || TransactionType.sell == TransactionType.sell)
      && (some iid).isSome) = true from rfl)]
  unfold updateHoldingsFifo
  rw [hty, hiid, hq]
  dsimp only
  rw [if_neg (by simp [hqpos.ne'] : ¬ (q == 0) = true)]
  rw [hf]
  dsimp only
  rw [if_pos (le_of_lt hlt)]
  rw [if_neg (show ¬ (h.quantity - q == 0) = true by
    simp [sub_ne_zero.mpr (ne_of_gt hlt)])]

/-- C10 witness: selling 4 out of 5 units leaves 1 unit at the same
average price 80, with only `quantity` and `updated_at` rewritten. -/
theorem partial_sell_changes_only_quantity_witness :
    sellTx4.transaction_type = .sell ∧
    sellTx4.instrument_id = some 2 ∧
    sellTx4.quantity = some 4 ∧
    (0 : ℚ) < 4 ∧
    findHolding [holding52] sellTx4.account_id 2 = some holding52 ∧
    (4 : ℚ) < holding52.quantity ∧
    createTransaction [holding52] sellTx4 9 =
      ([holding52].map (fun h' =>
        if h'.account_id == sellTx4.account_id
            && h'.instrument_id == 2 then
          { h' with quantity := h'.quantity - 4, updated_at := 9 }
        else h'), none) :=
  ⟨rfl, rfl, rfl, by norm_num, rfl, by norm_num [holding52],
   partial_sell_changes_only_quantity [holding52] sellTx4 9 2 4 holding52
     rfl rfl rfl (by norm_num) rfl (by norm_num [holding52])⟩

/-- In a state with pairwise-distinct keys, the holding found for a key is
the only member carrying that key. -/
theorem findHolding_unique (st : List Holding) (a i : Int) (h : Holding)
    (hpw : st.Pairwise (fun x y => ¬ sameKey x y))
    (hf : findHolding st a i = some h) :
    ∀ h' ∈ st, h'.account_id = a → h'.instrument_id = i → h' = h := by
  induction st with
  | nil => simp [findHolding] at hf
  | cons x xs ih =>
    rw [findHolding] at hf
    intro h' hmem ha hi
    rcases List.pairwise_cons.mp hpw with ⟨hx_not, hpw'⟩
    by_cases hpx : (x.account_id == a && x.instrument_id == i) = true
    · have hfx : List.find?
          (fun h0 => h0.account_id == a && h0.instrument_id == i)
          (x :: xs) = some x := List.find?_cons_of_pos _ hpx
      obtain rfl : x = h := by
        have := hfx.symm.trans hf
        injection this
      rcases List.mem_cons.mp hmem with rfl | hmem'
      · rfl
      · rcases (by simpa using hpx :
            x.account_id = a ∧ x.instrument_id = i) with ⟨hxa, hxi⟩
        exact absurd ⟨by rw [hxa, ha], by rw [hxi, hi]⟩ (hx_not h' hmem')
    · have hfx : List.find?
          (fun h0 => h0.account_id == a && h0.instrument_id == i)
          (x :: xs) =
          List.find?
            (fun h0 => h0.account_id == a && h0.instrument_id == i) xs :=
        List.find?_cons_of_neg _ (by simpa using hpx)
      rw [hfx] at hf
      rcases List.mem_cons.mp hmem with rfl | hmem'
      · exact absurd (by simp [ha, hi]) hpx
      · exact ih hpw' hf h' hmem' ha hi

/-- Mapping a key-preserving update over a state keeps keys pairwise
distinct. -/
theorem pairwise_map_of_keys (st : List Holding) (f : Holding → Holding)
    (hk : ∀ h, (f h).account_id = h.account_id ∧
      (f h).instrument_id = h.instrument_id)
    (hpw : st.Pairwise (fun x y => ¬ sameKey x y)) :
    (st.map f).Pairwise (fun x y => ¬ sameKey x y) := by
  refine hpw.map f ?_
  intro a b hab hsk
  exact hab ⟨by rw [← (hk a).1, ← (hk b).1]; exact hsk.1,
             by rw [← (hk a).2, ← (hk b).2]; exact hsk.2⟩

/-- A successful `_update_holdings_fifo` preserves well-formedness of the
holdings state (nonnegative quantities, unique keys), given a nonnegative
transaction quantity. -/
theorem updateHoldingsFifo_wf (st : List Holding) (tx : RepoTransaction)
    (now : Int) (st' : List Holding) (hwf : wfState st)
    (hq : ∀ q, tx.quantity = some q → 0 ≤ q)
    (h : updateHoldingsFifo st tx now = .ok st') : wfState st' := by
  unfold updateHoldingsFifo at h
  cases hiid : tx.instrument_id with
  | none =>
    rw [hiid] at h
    cases hqq : tx.quantity <;> rw [hqq] at h <;>
      (injection h with h'; exact h' ▸ hwf)
  | some iid =>
    rw [hiid] at h
    cases hqq : tx.quantity with
    | none =>
      rw [hqq] at h
      injection h with h'
      exact h' ▸ hwf
    | some q =>
      rw [hqq] at h
      have hq0 : 0 ≤ q := hq q hqq
      dsimp only at h
      by_cases hz : (q == 0) = true
      · rw [if_pos hz] at h
        injection h with h'
        exact h' ▸ hwf
      · rw [if_neg hz] at h
        cases hty : tx.transaction_type <;> rw [hty] at h <;>
          dsimp only at h
        · cases hf : findHolding st tx.account_id iid with
          | some hld =>
            rw [hf] at h
            dsimp only at h
            injection h with h'
            subst h'
            have hld_mem : hld ∈ st :=
              List.mem_of_find?_eq_some hf
            constructor
            · intro h'' hmem
              rcases List.mem_map.mp hmem with ⟨h3, hmem3, rfl⟩
              by_cases hc : (h3.account_id == tx.account_id
                  && h3.instrument_id == iid) = true
              · rw [if_pos hc]
                exact add_nonneg (hwf.1 hld hld_mem) hq0
              · rw [if_neg hc]
                exact hwf.1 h3 hmem3
            · refine pairwise_map_of_keys st _ ?_ hwf.2
              intro h3
              by_cases hc : (h3.account_id == tx.account_id
                  && h3.instrument_id == iid) = true
              · rw [if_pos hc]
                exact ⟨rfl, rfl⟩
              · rw [if_neg hc]
                exact ⟨rfl, rfl⟩
          | none =>
            rw [hf] at h
            dsimp only at h
            injection h with h'
            subst h'
            constructor
            · intro h'' hmem
              rcases List.mem_append.mp hmem with hmem' | hmem'
              · exact hwf.1 h'' hmem'
              · rcases List.mem_singleton.mp hmem' with rfl
                exact hq0
            · rw [List.pairwise_append]
              refine ⟨hwf.2, List.pairwise_singleton _ _, ?_⟩
              intro a hmem b hmemb hsk
              rcases List.mem_singleton.mp hmemb with rfl
              have := List.find?_eq_none.mp hf a hmem
              exact this (by simp [hsk.1, hsk.2])
        · cases hf : findHolding st tx.account_id iid with
          | some hld =>
            rw [hf] at h
            dsimp only at h
            have hld_mem : hld ∈ st := List.mem_of_find?_eq_some hf
            by_cases hge : hld.quantity ≥ q
            · rw [if_pos hge] at h
              by_cases hz2 : (hld.quantity - q == 0) = true
              · rw [if_pos hz2] at h
                injection h with h'
                subst h'
                exact ⟨fun h'' hmem =>
                    hwf.1 h'' (List.mem_of_mem_filter hmem),
                  hwf.2.sublist (List.filter_sublist st)⟩
              · rw [if_neg hz2] at h
                injection h with h'
                subst h'
                constructor
                · intro h'' hmem
                  rcases List.mem_map.mp hmem with ⟨h3, hmem3, rfl⟩
                  by_cases hc : (h3.account_id == tx.account_id
                      && h3.instrument_id == iid) = true
                  · rw [if_pos hc]
                    rcases (by simpa using hc :
                        h3.account_id = tx.account_id ∧
                          h3.instrument_id = iid) with ⟨hca, hci⟩
                    have h3eq : h3 = hld :=
                      findHolding_unique st tx.account_id iid hld hwf.2 hf
                        h3 hmem3 hca hci
                    rw [h3eq]
                    exact sub_nonneg.mpr hge
                  · rw [if_neg hc]
                    exact hwf.1 h3 hmem3
                · refine pairwise_map_of_keys st _ ?_ hwf.2
                  intro h3
                  by_cases hc : (h3.account_id == tx.account_id
                      && h3.instrument_id == iid) = true
                  · rw [if_pos hc]
                    exact ⟨rfl, rfl⟩
                  · rw [if_neg hc]
                    exact ⟨rfl, rfl⟩
            · rw [if_neg hge] at h
              simp at h
          | none =>
            rw [hf] at h
            dsimp only at h
            simp at h
        all_goals
          (injection h with h2; exact h2 ▸ hwf)

/-- `create` preserves well-formedness: on failure it rolls back, on
success the new state is well-formed. -/
theorem createTransaction_wf (st : List Holding) (tx : RepoTransaction)
    (now : Int) (hwf : wfState st)
    (hq : ∀ q, tx.quantity = some q → 0 ≤ q) :
    wfState (createTransaction st tx now).1 := by
  unfold createTransaction
  by_cases hc : ((tx.transaction_type == TransactionType.buy
      || tx.transaction_type == TransactionType.sell)
      && tx.instrument_id.isSome) = true
  · rw [if_pos hc]
    cases hufo : updateHoldingsFifo st tx now with
    | ok st' => exact updateHoldingsFifo_wf st tx now st' hwf hq hufo
    | error e => exact hwf
  · rw [if_neg hc]
    exact hwf

/-- C9: starting from an empty holdings state, any sequence of
transactions with nonnegative quantities applied through `create` keeps
every holding's quantity nonnegative after every step (a failing sell rolls
back, a succeeding sell subtracts at most the open quantity, a holding
reaching 0 is deleted). -/
theorem holdings_quantity_stays_nonneg (txs : List RepoTransaction)
    (now : Int)
    (hq : ∀ tx ∈ txs, ∀ q, tx.quantity = some q → 0 ≤ q) :
    ∀ h ∈ applyAll [] txs now, 0 ≤ h.quantity := by
  suffices main : ∀ (l : List RepoTransaction) (st : List Holding),
      wfState st → (∀ tx ∈ l, ∀ q, tx.quantity = some q → 0 ≤ q) →
      wfState (applyAll st l now) by
    exact (main txs [] ⟨by simp, List.Pairwise.nil⟩ hq).1
  intro l
  induction l with
  | nil => intro st hwf _; exact hwf
  | cons tx rest ih =>
    intro st hwf hql
    have h1 : wfState (createTransaction st tx now).1 :=
      createTransaction_wf st tx now hwf
        (hql tx (List.mem_cons_self tx rest))
    exact ih (createTransaction st tx now).1 h1
      (fun t ht => hql t (List.mem_cons_of_mem tx ht))

/-- C9 witness: buy 10 then sell 4 with positive quantities leaves all
holdings (here the single 6-unit one) nonnegative. -/
theorem holdings_quantity_stays_nonneg_witness :
    (∀ tx ∈ [buyTx10, sellTx4], ∀ q, tx.quantity = some q → 0 ≤ q) ∧
    (∀ h ∈ applyAll [] [buyTx10, sellTx4] 3, 0 ≤ h.quantity) :=
  ⟨by
    intro tx htx q hq
    rcases List.mem_cons.mp htx with rfl | htx'
    · cases hq; norm_num
    · rcases List.mem_singleton.mp htx' with rfl
      cases hq; norm_num,
   holdings_quantity_stays_nonneg [buyTx10, sellTx4] 3 (by
    intro tx htx q hq
    rcases List.mem_cons.mp htx with rfl | htx'
    · cases hq; norm_num
    · rcases List.mem_singleton.mp htx' with rfl
      cases hq; norm_num)⟩
